import Mathlib

/-
Verification of the extraction → download → archive pipeline of the
telegram-gallery-bot repository.  The JavaScript sources are shallowly
embedded: filesystem paths are lists of components, the filesystem is an
explicit state record, and every effectful call (network fetch, subprocess,
Telegram API) is resolved through an explicit environment record so that the
control flow of `bot.js`, `zipCreator.js`, the 7z archive variant and
`puppeteerScraper.js` can be replayed as pure Lean functions.
-/

namespace GalleryBot

/-- Filesystem paths, modelled as their list of components.  The JavaScript
sources manipulate slash-separated strings through `path.join` and
`path.dirname`; in this encoding `path.join dir name` is `dir ++ [name]` and
`path.dirname p` is `p.dropLast`. -/
abbrev FPath := List String

/-- Tests whether `d` is a component-wise prefix of `p`, i.e. whether `p`
names the directory `d` itself or something stored (recursively) inside it. -/
def underDir : FPath → FPath → Bool
  | [], _ => true
  | _ :: _, [] => false
  | a :: as, b :: bs => a == b && underDir as bs

/-- Filesystem state: the set of existing directories and the set of existing
files, each file carrying its size in bytes (`fs.statSync(..).size`). -/
structure FS where
  dirs : List FPath
  files : List (FPath × Nat)
deriving DecidableEq

/-- The empty filesystem. -/
def FS.empty : FS := ⟨[], []⟩

/-- Create a directory (model of `fs.mkdirSync` / `fs.promises.mkdir`). -/
def FS.mkdir (fs : FS) (d : FPath) : FS := { fs with dirs := d :: fs.dirs }

/-- Write a file of the given size (model of a completed download or of the
archive tool writing its output). -/
def FS.addFile (fs : FS) (p : FPath) (sz : Nat) : FS :=
  { fs with files := (p, sz) :: fs.files }

/-- Whether a file exists at `p` (model of `fs.existsSync` on a file path). -/
def FS.hasFile (fs : FS) (p : FPath) : Bool := fs.files.any (fun e => e.1 == p)

/-- Whether a directory exists at `d`. -/
def FS.hasDir (fs : FS) (d : FPath) : Bool := fs.dirs.any (fun e => e == d)

/-- Size of the file stored at `p`, if any (model of `fs.promises.stat`). -/
def FS.fileSize? (fs : FS) (p : FPath) : Option Nat :=
  (fs.files.find? (fun e => e.1 == p)).map (·.2)

/-- Recursive removal of a directory: the directory, every directory below it
and every file below it disappear. -/
def FS.removeDirRec (fs : FS) (d : FPath) : FS :=
  { dirs := fs.dirs.filter (fun x => !(underDir d x)),
    files := fs.files.filter (fun e => !(underDir d e.1)) }

/-- Removal of a single file. -/
def FS.removeFile (fs : FS) (p : FPath) : FS :=
  { fs with files := fs.files.filter (fun e => !(e.1 == p)) }

/-- Total size in bytes of everything stored below `dir`.  `zipCreator.js`
computes this by the recursive directory walk `getDirectorySize`; over the
flat file set of this model that walk is a filtered sum. -/
def FS.dirSize (fs : FS) (dir : FPath) : Nat :=
  (fs.files.filter (fun e => underDir dir e.1)).foldl (fun a e => a + e.2) 0

/-- Modelled from the spec: the scratch root used by `FileManager`
(`temp/` in the repository layout); `fileManager.js` itself is not among the
provided sources. -/
def tempRoot : FPath := ["temp"]

/-- Modelled from the spec: `FileManager.createTempDir(label)` allocates a
fresh, uniquely named scratch directory whose name combines the label with a
unique suffix; `uniq` stands for that suffix. -/
def createTempDir (label uniq : String) : FPath :=
  tempRoot ++ [label ++ "_" ++ uniq]

/-- Modelled from the spec: `FileManager.deleteDir(path)` — best-effort
recursive removal that never throws. -/
def deleteDir (d : FPath) (fs : FS) : FS := fs.removeDirRec d

/-- Modelled from the spec: `FileManager.deleteFile(path)` — best-effort
removal of a single file at a string path; failures are logged, never
thrown. -/
def deleteFile (p : FPath) (fs : FS) : FS := fs.removeFile p

/-- A JavaScript value flowing into the `archivePath` variable of `bot.js`:
either a single path string (what `bot.js` expects, and what the 7z variant
returns) or an array of path strings (what `zipCreator.js` actually
returns). -/
inductive JVal where
  | jstr (p : FPath)
  | jarr (ps : List FPath)
deriving DecidableEq

/-- Model of `fs.statSync(archivePath)` as called by `sendDownloadLink`:
the path argument must be a string; an Array raises
`TypeError [ERR_INVALID_ARG_TYPE]`, a missing file raises `ENOENT`, otherwise
the file's stats (here, its size) are returned. -/
def statSync (v : JVal) (fs : FS) : Except String Nat :=
  match v with
  | .jarr _ => .error "ERR_INVALID_ARG_TYPE"
  | .jstr p =>
    match fs.fileSize? p with
    | some sz => .ok sz
    | none => .error "ENOENT"

/-- The `FileManager.deleteFile(archivePath)` call on the failure path of
`bot.js`: when `archivePath` holds the Array returned by `ZipCreator`, the
underlying unlink rejects the non-string path and the failure is swallowed by
the surrounding catch, so nothing is removed. -/
def deleteFileJS (v : JVal) (fs : FS) : FS :=
  match v with
  | .jstr p => deleteFile p fs
  | .jarr _ => fs

/-- Character-list test that `pat` is an initial run of `s`; the semantics
of `String.startsWith` over the underlying character lists, kept structural
so that concrete runs reduce in the kernel. -/
def charsStart : List Char → List Char → Bool
  | [], _ => true
  | _ :: _, [] => false
  | a :: as, b :: bs => a == b && charsStart as bs

/-- Whether the string `s` starts with `pat`. -/
def strStarts (pat s : String) : Bool := charsStart pat.data s.data

/-- Whether the string `s` ends with `suffix`. -/
def strEnds (sfx s : String) : Bool :=
  charsStart sfx.data.reverse s.data.reverse

/-- Splitting a character list at every occurrence of `sep`; the semantics
of `String.splitOn` with a one-character separator. -/
def splitChar (sep : Char) : List Char → List (List Char)
  | [] => [[]]
  | c :: cs =>
    let r := splitChar sep cs
    if c == sep then [] :: r
    else
      match r with
      | [] => [[c]]
      | h :: t => (c :: h) :: t

/-- Modelled from the spec: `JsdomScraper.extractGalleryName(url)`
(`jsdomScraper.js` is not among the provided sources) — derives a
filesystem-safe identifier from the URL path: the last meaningful path
segment, with unsafe characters replaced; deterministic. -/
def extractGalleryName (url : String) : String :=
  let segs := (splitChar '/' url.data).filter (fun s => s ≠ [])
  let raw := segs.getLastD "gallery".data
  ⟨raw.map (fun c => if c.isAlphanum || c == '-' || c == '_' then c else '_')⟩

/-- Modelled from the spec: `strategyEngine.extractDomain(url)`
(`strategyEngine.js` is not among the provided sources) — the registrable
domain of the URL, matched case-insensitively. -/
def extractDomain (url : String) : String :=
  let rest :=
    if strStarts "https://" url then url.data.drop 8
    else if strStarts "http://" url then url.data.drop 7
    else url.data
  ⟨((splitChar '/' rest).headD []).map Char.toLower⟩

/-- Aggregate result of a download batch (`{ total, success, failed }`). -/
structure DownloadResult where
  total : Nat
  success : Nat
  failed : Nat
deriving DecidableEq

/-- Zero-padded three-digit index used in downloaded file names
(`001_name.jpg`, …). -/
def pad3 (n : Nat) : String :=
  if n < 10 then "00" ++ toString n
  else if n < 100 then "0" ++ toString n
  else toString n

/-- Modelled from the spec: the files written into `destDir` by
`ImageDownloader.downloadImages` (`imageDownloader.js` is not among the
provided sources) — one file per successful download, named with a
zero-padded sequential index, each of size `imgBytes` in this model. -/
def downloadWrite (fs : FS) (destDir : FPath) (urls : List String)
    (dr : DownloadResult) (imgBytes : Nat) : FS :=
  (List.range (min dr.success urls.length)).foldl
    (fun f i => f.addFile (destDir ++ [pad3 (i + 1) ++ "_img.jpg"]) imgBytes) fs

/-- A gallery as accumulated by the multi-gallery loop of `bot.js`:
a name plus the ordered image URL list. -/
structure Gallery where
  name : String
  urls : List String
deriving DecidableEq

/-- Modelled from the spec: `ImageDownloader.downloadMultipleGalleries` —
for each gallery in input order, a subdirectory named after the gallery is
created under `destDir` and its images are downloaded into it with indexed
filenames; a gallery with zero images still counts as completed.  Per-file
failures are absorbed; this model takes the case where the attempted
downloads succeed. -/
def downloadGalleries (fs : FS) (destDir : FPath) (gs : List Gallery)
    (imgBytes : Nat) : FS :=
  gs.foldl
    (fun f g =>
      let sub := destDir ++ [g.name]
      (List.range g.urls.length).foldl
        (fun f2 i => f2.addFile (sub ++ [pad3 (i + 1) ++ "_img.jpg"]) imgBytes)
        (f.mkdir sub))
    fs

namespace ZipCreator

/-- `MAX_FILE_SIZE_MB` from `src/src/downloaders/zipCreator.js`. -/
def MAX_FILE_SIZE_MB : Nat := 45

/-- The byte cap `MAX_FILE_SIZE_MB * 1024 * 1024`. -/
def maxSizeBytes : Nat := MAX_FILE_SIZE_MB * 1024 * 1024

/-- Two-digit zero padding (`String(volumeIndex).padStart(2, '0')`). -/
def pad2 (n : Nat) : String :=
  if n < 10 then "0" ++ toString n else toString n

/-- Number of parts the `zip -s` tool produces for an archive of `zipSize`
bytes under a per-part cap: the ceiling of `zipSize / cap`. -/
def zipPartsCount (zipSize cap : Nat) : Nat := (zipSize + cap - 1) / cap

/-- Model of the external `zip -r -s <cap>` invocation together with the
volume-collection loop of `createZipWithCommand`: the tool writes cap-sized
parts `stem.z01`, `stem.z02`, … and a final remainder part `stem.zip`
(its own enforcement keeps every part within the cap); the collection loop
gathers the main `.zip` first and then the numbered volumes in order.  When
everything fits in one part only `stem.zip` is produced. -/
def zipVolumes (stem : String) (zipSize cap : Nat) : List (String × Nat) :=
  let k := zipPartsCount zipSize cap
  if k ≤ 1 then [(stem ++ ".zip", zipSize)]
  else
    (stem ++ ".zip", zipSize - (k - 1) * cap) ::
      (List.range (k - 1)).map (fun i => (stem ++ ".z" ++ pad2 (i + 1), cap))

/-- `ZipCreator.createZipWithCommand(sourceDir, outputPath, enableSplit)`
from `src/src/downloaders/zipCreator.js`.  `outputDir`/`outputName` are
`path.dirname(outputPath)` and `path.basename(outputPath, '.zip')`; `zipOk`
is whether the `zip` subprocess exits normally (otherwise `execSync` throws
and the error is re-thrown) and `zipSize` the byte size of the archive the
tool produces.  Returns the list of created files with their sizes. -/
def createZipWithCommand (outputDir : FPath) (outputName : String)
    (zipOk : Bool) (zipSize : Nat) (enableSplit : Bool) :
    Except String (List (FPath × Nat)) :=
  if !zipOk then .error "zip command failed"
  else if enableSplit then
    .ok ((zipVolumes outputName zipSize maxSizeBytes).map
      (fun e => (outputDir ++ [e.1], e.2)))
  else .ok [(outputDir ++ [outputName ++ ".zip"], zipSize)]

/-- `ZipCreator.createAndSplitIfNeeded(sourceDir, outputPath)` from
`src/src/downloaders/zipCreator.js`: computes
`estimatedZipSize = getDirectorySize(sourceDir) * 0.85` and compares it with
`maxSizeBytes`; the comparison `totalSize * 0.85 > maxSizeBytes` is modelled
exactly as `17 * totalSize > 20 * maxSizeBytes`. -/
def createAndSplitIfNeeded (fs : FS) (sourceDir outputDir : FPath)
    (outputName : String) (zipOk : Bool) (zipSize : Nat) :
    Except String (List (FPath × Nat)) :=
  if 17 * fs.dirSize sourceDir > 20 * maxSizeBytes then
    createZipWithCommand outputDir outputName zipOk zipSize true
  else
    createZipWithCommand outputDir outputName zipOk zipSize false

/-- `ZipCreator.createSingleGalleryZip(galleryDir, galleryName)` from
`src/src/downloaders/zipCreator.js`: the output stem is
`galleryName_<timestamp>` placed in the parent directory of `galleryDir`. -/
def createSingleGalleryZip (fs : FS) (galleryDir : FPath)
    (galleryName : String) (ts : Nat) (zipOk : Bool) (zipSize : Nat) :
    Except String (List (FPath × Nat)) :=
  createAndSplitIfNeeded fs galleryDir galleryDir.dropLast
    (galleryName ++ "_" ++ toString ts) zipOk zipSize

/-- `ZipCreator.createMultiGalleryZip(baseDir, modelName)` from
`src/src/downloaders/zipCreator.js`: the output stem is
`modelName_galleries_<timestamp>` placed in the parent directory of
`baseDir`. -/
def createMultiGalleryZip (fs : FS) (baseDir : FPath) (modelName : String)
    (ts : Nat) (zipOk : Bool) (zipSize : Nat) :
    Except String (List (FPath × Nat)) :=
  createAndSplitIfNeeded fs baseDir baseDir.dropLast
    (modelName ++ "_galleries_" ++ toString ts) zipOk zipSize

end ZipCreator

namespace SevenZipCreator

/-- The `.7z` extension fix-up at the top of `createArchive` in
`src/unnamed/part_000`. -/
def ensure7z (name : String) : String :=
  if strEnds ".7z" name then name else name ++ ".7z"

/-- `ZipCreator.createArchive(sourceDir, outputPath)` from
`src/unnamed/part_000` (the subprocess-7z, single-file variant):
`execOk` is whether the `7z a` subprocess exits normally (otherwise
`execSync` throws and the error is re-thrown after logging) and
`outputCreated` whether the output file exists afterwards
(`fs.existsSync(outputPath)`); on success the (extension-fixed) output path
is returned, otherwise the call fails. -/
def createArchive (outputDir : FPath) (outputName : String)
    (execOk outputCreated : Bool) : Except String FPath :=
  let out := outputDir ++ [ensure7z outputName]
  if !execOk then .error "7z command failed"
  else if outputCreated then .ok out
  else .error "Archive file was not created"

/-- `ZipCreator.createSingleGalleryZip(galleryDir, galleryName)` from
`src/unnamed/part_000`: archive `galleryName_<timestamp>.7z` in the parent
directory of `galleryDir`. -/
def createSingleGalleryZip (galleryDir : FPath) (galleryName : String)
    (ts : Nat) (execOk outputCreated : Bool) : Except String FPath :=
  createArchive galleryDir.dropLast
    (galleryName ++ "_" ++ toString ts ++ ".7z") execOk outputCreated

/-- `ZipCreator.createMultiGalleryZip(baseDir, modelName)` from
`src/unnamed/part_000`: archive `modelName_galleries_<timestamp>.7z` in the
parent directory of `baseDir`. -/
def createMultiGalleryZip (baseDir : FPath) (modelName : String)
    (ts : Nat) (execOk outputCreated : Bool) : Except String FPath :=
  createArchive baseDir.dropLast
    (modelName ++ "_galleries_" ++ toString ts ++ ".7z") execOk outputCreated

end SevenZipCreator

/-- `DOWNLOADS_DIR` of `bot.js` (`/app/downloads`). -/
def DOWNLOADS_DIR : FPath := ["app", "downloads"]

/-- `DOWNLOAD_BASE_URL` of `bot.js`. -/
def DOWNLOAD_BASE_URL : String := "https://gallery.balad.dpdns.org/downloads"

/-- Model of `fs.promises.rename(src, dst)`: within one filesystem the file
is moved atomically; across distinct volumes the underlying syscall fails
with `EXDEV` (`vol` assigns a volume identifier to every path). -/
def renameFS (vol : FPath → Nat) (src dst : FPath) (fs : FS) :
    Except String FS :=
  match fs.fileSize? src with
  | none => .error "ENOENT"
  | some sz =>
    if vol src = vol dst then .ok ((fs.removeFile src).addFile dst sz)
    else .error "EXDEV"

/-- `TelegramBot.moveToDownloads(filePath)` from `src/src/bot.js`: computes
`path.basename(filePath)`, renames the file into `DOWNLOADS_DIR` with a
single `fs.promises.rename`, and returns the download URL; any error is
logged and re-thrown. -/
def moveToDownloads (vol : FPath → Nat) (filePath : FPath) (fs : FS) :
    Except String (String × FS) :=
  let fileName := filePath.getLastD ""
  let destPath := DOWNLOADS_DIR ++ [fileName]
  match renameFS vol filePath destPath fs with
  | .error e => .error e
  | .ok fs1 => .ok (DOWNLOAD_BASE_URL ++ "/" ++ fileName, fs1)

/-- Worker for `dedupFirst`: keeps the elements not seen before, in order. -/
def dedupFirstAux (seen : List String) : List String → List String
  | [] => []
  | a :: as =>
    if seen.contains a then dedupFirstAux seen as
    else a :: dedupFirstAux (a :: seen) as

/-- First-occurrence deduplication, the semantics of
`[...new Set(xs)]` in the scrapers. -/
def dedupFirst (l : List String) : List String := dedupFirstAux [] l

/-- The origin (`new URL(url).origin`) of an absolute http(s) URL. -/
def originOf (url : String) : String :=
  if strStarts "https://" url then
    "https://" ++ String.mk ((splitChar '/' (url.data.drop 8)).headD [])
  else if strStarts "http://" url then
    "http://" ++ String.mk ((splitChar '/' (url.data.drop 7)).headD [])
  else url

/-- The relative-URL fix-up of `puppeteerScraper.js`: a link already starting
with `http` is kept, otherwise it is resolved against the page origin
(`new URL(link, baseUrl).href`; resolution of `..` segments is not
modelled). -/
def absolutize (base : String) (link : String) : String :=
  if strStarts "http" link then link
  else if strStarts "/" link then base ++ link
  else base ++ "/" ++ link

/-- Outcomes of the effectful steps inside
`PuppeteerScraper.extractGalleryLinks`: whether `puppeteer.launch`,
`browser.newPage`, `page.setUserAgent` and `page.goto` succeed, and the link
list produced by `page.$$eval` (or the exception it throws). -/
structure PuppeteerEnv where
  launchOk : Bool
  newPageOk : Bool
  setUserAgentOk : Bool
  gotoOk : Bool
  evalLinks : Except String (List String)

/-- Decidable equality for `Except`, used to state concrete evaluations of
the fallible operations of this development. -/
instance {ε α : Type} [DecidableEq ε] [DecidableEq α] :
    DecidableEq (Except ε α) := fun x y =>
  match x, y with
  | .ok a, .ok b =>
    if h : a = b then .isTrue (by rw [h])
    else .isFalse (by intro hh; cases hh; exact h rfl)
  | .error a, .error b =>
    if h : a = b then .isTrue (by rw [h])
    else .isFalse (by intro hh; cases hh; exact h rfl)
  | .ok _, .error _ => .isFalse (by intro hh; cases hh)
  | .error _, .ok _ => .isFalse (by intro hh; cases hh)

/-- Observable outcome of one `extractGalleryLinks` call: the returned value
or propagated error, whether a browser instance was launched, and whether it
was closed before the call returned. -/
structure ScrapeOutcome where
  result : Except String (List String)
  browserLaunched : Bool
  browserClosed : Bool
deriving DecidableEq

/-- `PuppeteerScraper.extractGalleryLinks(url, strategy)` from
`puppeteerScraper.js` (embedded in `src/README.md`).  The `try` body runs
launch → newPage → setUserAgent → goto → autoScroll (which catches its own
errors and never throws) → `$$eval` → absolutize → dedupe; the `finally`
block closes the browser whenever the `browser` variable was assigned, on
the normal return and on every propagated exception alike. -/
def extractGalleryLinks (url : String) (env : PuppeteerEnv) : ScrapeOutcome :=
  if !env.launchOk then ⟨.error "failed to launch browser", false, false⟩
  else if !env.newPageOk then ⟨.error "newPage failed", true, true⟩
  else if !env.setUserAgentOk then ⟨.error "setUserAgent failed", true, true⟩
  else if !env.gotoOk then ⟨.error "Navigation timeout exceeded", true, true⟩
  else
    match env.evalLinks with
    | .error e => ⟨.error e, true, true⟩
    | .ok links =>
      ⟨.ok (dedupFirst (links.map (absolutize (originOf url)))), true, true⟩

/-- The scroll step size (`distance = 100`) of
`PuppeteerScraper.autoScroll`. -/
def scrollDistance : Nat := 100

/-- The timer loop of `PuppeteerScraper.autoScroll`, driven by the page's
height history `heights` (the value of `document.body.scrollHeight` read at
each tick).  At tick `t` the loop has scrolled `scrollDistance * t` pixels,
reads the current height, scrolls by `scrollDistance`, and stops when the
scrolled total reaches the height just read.  `fuel` bounds the number of
ticks inspected; the JavaScript loop itself has no such bound, so
non-termination shows as `none` for every fuel. -/
def autoScrollRun (heights : Nat → Nat) : Nat → Nat → Option Nat
  | _, 0 => none
  | t, fuel + 1 =>
    if scrollDistance * (t + 1) ≥ heights t then some t
    else autoScrollRun heights (t + 1) fuel

/-- The auto-scroll loop terminates on the height history `heights`. -/
def autoScrollTerminates (heights : Nat → Nat) : Prop :=
  ∃ fuel, (autoScrollRun heights 0 fuel).isSome = true

/-- The session state of `bot.js` observable at the end of a job
(`STATE.PROCESSING` is only held while a handler runs). -/
inductive BotState where
  | idle
  | processing
deriving DecidableEq

/-- Outcomes of the effectful steps of `processSingleGallery`: the result of
`JsdomScraper.extractImages`, the unique scratch-directory suffix, the
result of `ImageDownloader.downloadImages`, the per-image file size, the
timestamp used in the archive name, the `zip` subprocess outcome and archive
size, and the volume map governing the final rename.  Telegram status edits
are taken to succeed. -/
structure SingleEnv where
  url : String
  images : Except String (List String)
  uniq : String
  download : Except String DownloadResult
  imgBytes : Nat
  ts : Nat
  zipOk : Bool
  zipSize : Nat
  vol : FPath → Nat

/-- Observable outcome of one job: the final filesystem, the session state,
the user-facing error (if any), whether the scratch directory was created,
whether a download batch was started, and whether the download link was
successfully published. -/
structure JobResult where
  fs : FS
  state : BotState
  error : Option String
  tempCreated : Bool
  downloadAttempted : Bool
  published : Bool
deriving DecidableEq

/-- The `catch` block shared by `processSingleGallery` and
`processMultiGallery` in `bot.js`: edit the status message, delete the
scratch directory when `tempDir` was assigned, call
`FileManager.deleteFile(archivePath)` when `archivePath` was assigned, and
return the session to idle. -/
def failCleanup (fs : FS) (tempDir : Option FPath) (archivePath : Option JVal)
    (tempCreated downloadAttempted : Bool) (e : String) : JobResult :=
  let fs1 := match tempDir with
    | some d => deleteDir d fs
    | none => fs
  let fs2 := match archivePath with
    | some v => deleteFileJS v fs1
    | none => fs1
  ⟨fs2, .idle, some e, tempCreated, downloadAttempted, false⟩

/-- `TelegramBot.processSingleGallery(ctx, url)` from `src/src/bot.js`:
extract images → fail when zero found → create scratch directory → download
batch → fail when zero succeeded → `ZipCreator.createSingleGalleryZip`
(the required `./downloaders/zipCreator` module, which returns an Array of
paths) → `sendDownloadLink` (which calls `fs.statSync(archivePath)` and then
`moveToDownloads`; both require a string path, so the Array raises
`ERR_INVALID_ARG_TYPE`) → delete scratch directory → idle; every thrown
error lands in the `catch` block modelled by `failCleanup`. -/
def processSingleGallery (env : SingleEnv) (fs0 : FS) : JobResult :=
  match env.images with
  | .error e => failCleanup fs0 none none false false e
  | .ok imageUrls =>
    if imageUrls.length = 0 then
      failCleanup fs0 none none false false "No images found in gallery"
    else
      let tempDir := createTempDir "single_gallery" env.uniq
      let galleryName := extractGalleryName env.url
      let fs1 := fs0.mkdir tempDir
      match env.download with
      | .error e => failCleanup fs1 (some tempDir) none true true e
      | .ok dr =>
        let fs2 := downloadWrite fs1 tempDir imageUrls dr env.imgBytes
        if dr.success = 0 then
          failCleanup fs2 (some tempDir) none true true
            "Failed to download any images"
        else
          match ZipCreator.createSingleGalleryZip fs2 tempDir galleryName
              env.ts env.zipOk env.zipSize with
          | .error e => failCleanup fs2 (some tempDir) none true true e
          | .ok entries =>
            let fs3 := entries.foldl (fun f e => f.addFile e.1 e.2) fs2
            let archivePath : JVal := .jarr (entries.map (·.1))
            match statSync archivePath fs3 with
            | .error e =>
              failCleanup fs3 (some tempDir) (some archivePath) true true e
            | .ok _ =>
              match archivePath with
              | .jarr _ =>
                failCleanup fs3 (some tempDir) (some archivePath) true true
                  "ERR_INVALID_ARG_TYPE"
              | .jstr p =>
                match moveToDownloads env.vol p fs3 with
                | .error e =>
                  failCleanup fs3 (some tempDir) (some archivePath) true true e
                | .ok (_, fs4) =>
                  ⟨deleteDir tempDir fs4, .idle, none, true, true, true⟩

/-- The per-gallery extraction loop of `processMultiGallery`
(`src/src/bot.js` lines 460–480): for every gallery link, try
`JsdomScraper.extractImages`; on success push `{ name, urls }`, on failure
log a warning and continue with the next link. -/
def extractGalleriesLoop (links : List String)
    (perGallery : String → Except String (List String)) : List Gallery :=
  links.filterMap (fun l =>
    match perGallery l with
    | .ok urls => some ⟨extractGalleryName l, urls⟩
    | .error _ => none)

/-- Outcomes of the effectful steps of `processMultiGallery`: the result of
`PuppeteerScraper.extractGalleryLinks`, the per-link outcome of
`JsdomScraper.extractImages`, and the remaining knobs as in `SingleEnv`. -/
structure MultiEnv where
  url : String
  links : Except String (List String)
  perGallery : String → Except String (List String)
  uniq : String
  imgBytes : Nat
  ts : Nat
  zipOk : Bool
  zipSize : Nat
  vol : FPath → Nat

/-- Observable outcome of one multi-gallery job; `archivedFiles` lists the
files below the scratch directory at the moment the archive was built
(i.e. the relative content of the archive). -/
structure MultiResult where
  fs : FS
  state : BotState
  error : Option String
  galleries : List Gallery
  archivedFiles : List FPath
deriving DecidableEq

/-- `TelegramBot.processMultiGallery(ctx, url)` from `src/src/bot.js`:
dynamic-extract gallery links → fail when zero found → per-gallery static
extraction (failures absorbed) → create scratch directory → download all
galleries → `ZipCreator.createMultiGalleryZip` (Array of paths) →
`sendDownloadLink` (the Array raises `ERR_INVALID_ARG_TYPE` in
`fs.statSync`) → delete scratch directory → idle; thrown errors reach the
`catch` block which deletes the scratch directory, calls
`deleteFile(archivePath)` and resets the session. -/
def processMultiGallery (env : MultiEnv) (fs0 : FS) : MultiResult :=
  match env.links with
  | .error e => ⟨fs0, .idle, some e, [], []⟩
  | .ok galleryLinks =>
    if galleryLinks.length = 0 then
      ⟨fs0, .idle, some "No galleries found on this page", [], []⟩
    else
      let gs := extractGalleriesLoop galleryLinks env.perGallery
      let tempDir := createTempDir "multi_gallery" env.uniq
      let modelName : String :=
        ⟨(splitChar '.' (extractDomain env.url).data).headD []⟩
      let fs1 := fs0.mkdir tempDir
      let fs2 := downloadGalleries fs1 tempDir gs env.imgBytes
      match ZipCreator.createMultiGalleryZip fs2 tempDir modelName env.ts
          env.zipOk env.zipSize with
      | .error e => ⟨deleteDir tempDir fs2, .idle, some e, gs, []⟩
      | .ok entries =>
        let archived := (fs2.files.filter
          (fun e => underDir tempDir e.1)).map (·.1)
        let fs3 := entries.foldl (fun f e => f.addFile e.1 e.2) fs2
        let archivePath : JVal := .jarr (entries.map (·.1))
        match statSync archivePath fs3 with
        | .error e =>
          ⟨deleteFileJS archivePath (deleteDir tempDir fs3), .idle, some e,
            gs, archived⟩
        | .ok _ =>
          match archivePath with
          | .jarr _ =>
            ⟨deleteFileJS archivePath (deleteDir tempDir fs3), .idle,
              some "ERR_INVALID_ARG_TYPE", gs, archived⟩
          | .jstr p =>
            match moveToDownloads env.vol p fs3 with
            | .error e =>
              ⟨deleteFileJS archivePath (deleteDir tempDir fs3), .idle,
                some e, gs, archived⟩
            | .ok (_, fs4) =>
              ⟨deleteDir tempDir fs4, .idle, none, gs, archived⟩

/-- Number of distinct non-empty immediate subfolders of `tempDir` that the
file list `files` (of paths below `tempDir`) witnesses. -/
def subfolderCount (tempDir : FPath) (files : List FPath) : Nat :=
  (dedupFirst (files.filterMap
    (fun p => (p.drop tempDir.length).head?))).length

/-- Membership test for a character in a character list, kept structural. -/
def hasChar (c : Char) : List Char → Bool
  | [] => false
  | a :: as => a == c || hasChar c as

/-- Whether a string contains a dot; archive filenames do, scratch-directory
names of the form `label_suffix` do not. -/
def strHasDot (s : String) : Bool := hasChar '.' s.data

/-- The list of paths named by an archive-creation result of the
subprocess-zip variant (empty when the creation failed). -/
def zipPathsOf (r : Except String (List (FPath × Nat))) : List FPath :=
  match r with
  | .ok l => l.map (·.1)
  | .error _ => []

/-- Concrete single-gallery job used to evaluate the cleanup behaviour of
`processSingleGallery`: one image is found, its download succeeds, and the
`zip` subprocess succeeds producing a 900-byte archive. -/
def c1Env : SingleEnv :=
  { url := "http://site.com/gal-a/"
    images := .ok ["http://site.com/img/a.jpg"]
    uniq := "u1"
    download := .ok ⟨1, 1, 0⟩
    imgBytes := 1000
    ts := 1
    zipOk := true
    zipSize := 900
    vol := fun _ => 0 }

/-- The per-link extraction outcomes of the 10/0/5 scenario: the middle
gallery's static extraction fails, the other two yield 10 and 5 image
URLs. -/
def c7PerGallery : String → Except String (List String) := fun l =>
  if l = "http://site.com/gallery/g2/" then
    .error "Request failed with status code 500"
  else if l = "http://site.com/gallery/g1/" then .ok (List.replicate 10 "u")
  else .ok (List.replicate 5 "u")

/-- Concrete multi-gallery job for the 10/0/5 scenario: three gallery links
are found, the middle extraction fails, all attempted downloads succeed, and
the `zip` subprocess succeeds. -/
def c7Env : MultiEnv :=
  { url := "http://site.com/model/m/"
    links := .ok ["http://site.com/gallery/g1/", "http://site.com/gallery/g2/",
                  "http://site.com/gallery/g3/"]
    perGallery := c7PerGallery
    uniq := "u2"
    imgBytes := 1000
    ts := 7
    zipOk := true
    zipSize := 14000
    vol := fun _ => 0 }

/-- A volume map with the scratch root and the downloads directory on
different filesystems, as in the deployed layout (`temp/` in the app
directory vs. a mounted `/app/downloads`). -/
def c2Vol : FPath → Nat := fun p => if p.headD "" == "temp" then 1 else 0

/-- A filesystem holding one finished archive in the scratch root. -/
def c2FS : FS := ⟨[["temp"]], [(["temp", "g_1.zip"], 900)]⟩

/-- A filesystem holding one finished archive, used to witness the
same-volume behaviour of `moveToDownloads`. -/
def c2wFS : FS := ⟨[["temp"]], [(["temp", "a.zip"], 5)]⟩

/-- A source directory holding 50 MB of already-compressed images: the
0.85-discounted estimate (42.5 MB) is below the 45 MB cap although the
archive itself is not. -/
def c5FS : FS := ⟨[["temp", "d"]], [(["temp", "d", "a.jpg"], 52428800)]⟩

/-- A source directory of 200 MB, far above the cap, driving the
multi-volume branch. -/
def c5wFS : FS := ⟨[["temp", "d"]], [(["temp", "d", "a.jpg"], 209715200)]⟩

/-- A page whose document height grows by the scroll distance plus 100 every
tick — a continuously-growing page in the sense of the spec. -/
def c4BadHeights : Nat → Nat := fun t => scrollDistance * t + 200

/-- A small populated gallery directory used to compare the two archive
builder variants. -/
def c9FS : FS := ⟨[["temp", "g"]], [(["temp", "g", "001_img.jpg"], 900)]⟩

/-- A scraper run in which the browser launches and the navigation then
times out. -/
def c3Env : PuppeteerEnv :=
  { launchOk := true
    newPageOk := true
    setUserAgentOk := true
    gotoOk := false
    evalLinks := .ok [] }

/-- String concatenation concatenates the underlying character lists. -/
theorem strData_append (s t : String) : (s ++ t).data = s.data ++ t.data := by
  cases s; cases t; rfl

/-- String concatenation is associative. -/
theorem strAppend_assoc : ∀ a b c : String, a ++ b ++ c = a ++ (b ++ c)
  | ⟨as⟩, ⟨bs⟩, ⟨cs⟩ => congrArg String.mk (List.append_assoc as bs cs)

/-- Character search distributes over list concatenation. -/
theorem hasChar_append (c : Char) (l₁ l₂ : List Char) :
    hasChar c (l₁ ++ l₂) = (hasChar c l₁ || hasChar c l₂) := by
  induction l₁ with
  | nil => simp [hasChar]
  | cons a as ih => simp [hasChar, ih, Bool.or_assoc]

/-- Dot search distributes over string concatenation. -/
theorem strHasDot_append (s t : String) :
    strHasDot (s ++ t) = (strHasDot s || strHasDot t) := by
  unfold strHasDot
  rw [strData_append, hasChar_append]

/-- A list is an initial run of itself followed by anything. -/
theorem charsStart_append_self (pat rest : List Char) :
    charsStart pat (pat ++ rest) = true := by
  induction pat with
  | nil => rfl
  | cons a as ih => simp [charsStart, ih]

/-- Appending a suffix makes `strEnds` true. -/
theorem strEnds_append (sfx s : String) : strEnds sfx (s ++ sfx) = true := by
  unfold strEnds
  rw [strData_append, List.reverse_append]
  exact charsStart_append_self _ _

/-- A path extended below `l` is compared with another such path on the last
component alone. -/
theorem underDir_append_same (l : List String) (a b : String) :
    underDir (l ++ [a]) (l ++ [b]) = (a == b) := by
  induction l with
  | nil => simp [underDir]
  | cons c cs ih => simp [underDir, ih]

/-- Files whose key is filtered out are not found any more. -/
theorem any_filter_beq_false (p : FPath) (l : List (FPath × Nat)) :
    ((l.filter fun e => !(e.1 == p)).any fun e => e.1 == p) = false := by
  induction l with
  | nil => rfl
  | cons e l ih =>
    by_cases he : e.1 = p
    · simp [List.filter_cons, he, ih]
    · simp [List.filter_cons, he, List.any_cons, ih]

/-- Filtering away the content of a directory does not change lookups of
paths outside that directory. -/
theorem any_key_filter (d p : FPath) (l : List (FPath × Nat))
    (h : underDir d p = false) :
    ((l.filter fun e => !(underDir d e.1)).any fun e => e.1 == p)
      = l.any fun e => e.1 == p := by
  induction l with
  | nil => rfl
  | cons e l ih =>
    by_cases he : underDir d e.1 = true
    · have hne : (e.1 == p) = false := by
        rcases heq : e.1 == p with _ | _
        · rfl
        · rw [eq_of_beq heq] at he
          rw [he] at h
          cases h
      simp [List.filter_cons, he, List.any_cons, hne, ih]
    · have he' : underDir d e.1 = false := by
        rcases hval : underDir d e.1 with _ | _
        · rfl
        · exact absurd hval he
      simp [List.filter_cons, he', List.any_cons, ih]

/-- Deleting a directory leaves lookups of files outside it unchanged. -/
theorem hasFile_deleteDir_of_outside (d p : FPath) (fs : FS)
    (h : underDir d p = false) :
    (deleteDir d fs).hasFile p = fs.hasFile p := by
  unfold deleteDir FS.removeDirRec FS.hasFile
  exact any_key_filter d p fs.files h

/-- A freshly added file is found. -/
theorem hasFile_addFile_self (fs : FS) (p : FPath) (sz : Nat) :
    (fs.addFile p sz).hasFile p = true := by
  simp [FS.addFile, FS.hasFile, List.any_cons]

/-- A removed file is no longer found. -/
theorem hasFile_removeFile_self (fs : FS) (p : FPath) :
    (fs.removeFile p).hasFile p = false := by
  unfold FS.removeFile FS.hasFile
  exact any_filter_beq_false p fs.files

/-- An archive filename placed next to the scratch directory is neither the
scratch directory itself nor inside it, and survives its deletion. -/
theorem parentFile_ok (tempDir : FPath) (fn : String) (fs2 : FS)
    (hne : tempDir ≠ []) (hdot : strHasDot (tempDir.getLastD "") = false)
    (hfn : strHasDot fn = true) :
    (tempDir.dropLast ++ [fn]).dropLast = tempDir.dropLast ∧
    underDir tempDir (tempDir.dropLast ++ [fn]) = false ∧
    (deleteDir tempDir fs2).hasFile (tempDir.dropLast ++ [fn])
      = fs2.hasFile (tempDir.dropLast ++ [fn]) := by
  rcases List.eq_nil_or_concat tempDir with h0 | ⟨l, a, rfl⟩
  · exact absurd h0 hne
  · simp only [List.concat_eq_append] at hdot ⊢
    rw [List.getLastD_concat] at hdot
    have hab : (a == fn) = false := by
      rcases heq : a == fn with _ | _
      · rfl
      · rw [← eq_of_beq heq] at hfn
        rw [hfn] at hdot
        cases hdot
    have hu : underDir (l ++ [a]) ((l ++ [a]).dropLast ++ [fn]) = false := by
      rw [List.dropLast_concat, underDir_append_same, hab]
    exact ⟨by rw [List.dropLast_concat, List.dropLast_concat], hu,
      hasFile_deleteDir_of_outside _ _ _ hu⟩

/-- A numbered-volume extension is not the `.7z` extension. -/
theorem zExt_ne_7z (i : Nat) : ".z" ++ ZipCreator.pad2 i ≠ ".7z" := by
  intro h
  have hd : ('.' :: 'z' :: (ZipCreator.pad2 i).data : List Char)
      = ['.', '7', 'z'] := congrArg String.data h
  simp at hd

/-- Every part name produced by the zip tool extends the requested stem with
an extension that contains a dot and is not `.7z`. -/
theorem zipVolumes_shape (stem : String) (n cap : Nat) :
    ∀ e ∈ ZipCreator.zipVolumes stem n cap,
      ∃ ext, e.1 = stem ++ ext ∧ strHasDot ext = true ∧ ext ≠ ".7z" := by
  intro e he
  simp only [ZipCreator.zipVolumes] at he
  split at he
  · simp only [List.mem_singleton] at he
    exact ⟨".zip", by rw [he], by decide, by decide⟩
  · rcases List.mem_cons.1 he with rfl | hmem
    · exact ⟨".zip", rfl, by decide, by decide⟩
    · obtain ⟨i, _, rfl⟩ := List.mem_map.1 hmem
      refine ⟨".z" ++ ZipCreator.pad2 (i + 1), strAppend_assoc _ _ _, ?_, zExt_ne_7z _⟩
      rw [strHasDot_append]
      simp [show strHasDot ".z" = true from by decide]

/-- Every part the zip tool produces under the 45 MB cap is at most the
cap — the tool's own enforcement of the volume size. -/
theorem zipVolumes_size_le (stem : String) (n : Nat) :
    ∀ e ∈ ZipCreator.zipVolumes stem n ZipCreator.maxSizeBytes,
      e.2 ≤ ZipCreator.maxSizeBytes := by
  intro e he
  simp only [ZipCreator.zipVolumes, ZipCreator.zipPartsCount,
    ZipCreator.maxSizeBytes, ZipCreator.MAX_FILE_SIZE_MB] at he ⊢
  split at he
  · next hk =>
    simp only [List.mem_singleton] at he
    rw [he]
    omega
  · next hk =>
    rcases List.mem_cons.1 he with rfl | hmem
    · show n - ((n + 45 * 1024 * 1024 - 1) / (45 * 1024 * 1024) - 1)
          * (45 * 1024 * 1024) ≤ 45 * 1024 * 1024
      omega
    · obtain ⟨i, _, rfl⟩ := List.mem_map.1 hmem
      exact le_refl _

/-- Every path produced by `createZipWithCommand` sits in the requested
output directory, with a stem-plus-extension filename. -/
theorem zipPaths_createZip_shape (outDir : FPath) (stem : String)
    (zipOk : Bool) (n : Nat) (split : Bool) :
    ∀ p ∈ zipPathsOf (ZipCreator.createZipWithCommand outDir stem zipOk n split),
      ∃ ext, p = outDir ++ [stem ++ ext] ∧ strHasDot ext = true ∧ ext ≠ ".7z" := by
  intro p hp
  cases zipOk with
  | false => simp [ZipCreator.createZipWithCommand, zipPathsOf] at hp
  | true =>
    cases split with
    | false =>
      simp [ZipCreator.createZipWithCommand, zipPathsOf] at hp
      exact ⟨".zip", by rw [hp], by decide, by decide⟩
    | true =>
      simp only [ZipCreator.createZipWithCommand, Bool.not_true,
        Bool.false_eq_true, if_false, if_true, zipPathsOf,
        List.map_map, List.mem_map] at hp
      obtain ⟨e, he, rfl⟩ := hp
      obtain ⟨ext, h1, h2, h3⟩ := zipVolumes_shape stem n ZipCreator.maxSizeBytes e he
      exact ⟨ext, by simp [h1], h2, h3⟩

/-- Every path produced by `createAndSplitIfNeeded` sits in the requested
output directory, with a stem-plus-extension filename. -/
theorem zipPaths_createAndSplit_shape (fs : FS) (src outDir : FPath)
    (stem : String) (zipOk : Bool) (n : Nat) :
    ∀ p ∈ zipPathsOf (ZipCreator.createAndSplitIfNeeded fs src outDir stem zipOk n),
      ∃ ext, p = outDir ++ [stem ++ ext] ∧ strHasDot ext = true ∧ ext ≠ ".7z" := by
  intro p hp
  unfold ZipCreator.createAndSplitIfNeeded at hp
  split at hp
  · exact zipPaths_createZip_shape _ _ _ _ _ p hp
  · exact zipPaths_createZip_shape _ _ _ _ _ p hp

/-- Adding the `.7z` extension to a name that already carries it changes
nothing. -/
theorem ensure7z_of_end (s : String) :
    SevenZipCreator.ensure7z (s ++ ".7z") = s ++ ".7z" := by
  unfold SevenZipCreator.ensure7z
  rw [strEnds_append]
  simp

/-- Inversion for a successful `createArchive` of the 7z variant: success
requires a normal subprocess exit and an existing output file, and the
returned path is the extension-fixed output path. -/
theorem sevenZip_createArchive_ok (outDir : FPath) (name : String)
    (execOk created : Bool) (p : FPath)
    (h : SevenZipCreator.createArchive outDir name execOk created = .ok p) :
    p = outDir ++ [SevenZipCreator.ensure7z name]
      ∧ execOk = true ∧ created = true := by
  cases execOk <;> cases created <;>
    simp [SevenZipCreator.createArchive] at h
  exact ⟨h.symm, rfl, rfl⟩

/-- Helper for C8: the scratch directory is created, and a download batch
started, only after a non-empty image list was extracted. -/
theorem single_flags_need_images (env : SingleEnv) (fs0 : FS)
    (h : (processSingleGallery env fs0).tempCreated = true ∨
      (processSingleGallery env fs0).downloadAttempted = true) :
    ∃ urls, env.images = .ok urls ∧ urls ≠ [] := by
  rcases himg : env.images with e | urls
  · unfold processSingleGallery at h
    rw [himg] at h
    simp [failCleanup] at h
  · by_cases hlen : urls.length = 0
    · unfold processSingleGallery at h
      rw [himg] at h
      simp [failCleanup, hlen] at h
    · refine ⟨urls, rfl, fun hn => hlen ?_⟩
      rw [hn]
      rfl

/-- C1: the code does not maintain the claimed cleanup invariant.  In the
concrete single-gallery job `c1Env` (one image found, download succeeds,
archiving succeeds producing `temp/gal-a_1.zip`, publishing then fails
because `fs.statSync` receives the Array returned by
`ZipCreator.createSingleGalleryZip`), the job returns to idle and the
scratch directory with its contents is gone, but the partially processed
archive file remains on disk: the failure path's
`FileManager.deleteFile(archivePath)` also received the Array, its unlink
rejected the non-string path, and the failure was swallowed. -/
theorem c1_cleanup_divergence :
    (processSingleGallery c1Env FS.empty).state = BotState.idle ∧
    (processSingleGallery c1Env FS.empty).fs.hasDir
      (createTempDir "single_gallery" "u1") = false ∧
    (processSingleGallery c1Env FS.empty).fs.hasFile
      (createTempDir "single_gallery" "u1" ++ ["001_img.jpg"]) = false ∧
    (processSingleGallery c1Env FS.empty).error
      = some "ERR_INVALID_ARG_TYPE" ∧
    (processSingleGallery c1Env FS.empty).fs.hasFile
      ["temp", "gal-a_1.zip"] = true := by
  decide

/-- C3: on every exit path of `extractGalleryLinks` on which the headless
browser was launched — normal return, navigation timeout, or any thrown
exception — the browser instance is closed before the call returns or the
error propagates. -/
theorem c3_browser_closed_on_every_exit (url : String) (env : PuppeteerEnv)
    (h : env.launchOk = true) :
    (extractGalleryLinks url env).browserLaunched = true ∧
    (extractGalleryLinks url env).browserClosed = true := by
  unfold extractGalleryLinks
  rw [h]
  cases env.newPageOk <;> cases env.setUserAgentOk <;> cases env.gotoOk <;>
    cases env.evalLinks <;> simp

/-- Witness for C3: a run whose navigation times out after the browser
launched still ends with the browser closed. -/
theorem c3_browser_closed_witness :
    c3Env.launchOk = true ∧
    ((extractGalleryLinks "http://site.com/model/m/" c3Env).browserLaunched
        = true ∧
      (extractGalleryLinks "http://site.com/model/m/" c3Env).browserClosed
        = true) :=
  ⟨rfl, c3_browser_closed_on_every_exit "http://site.com/model/m/" c3Env rfl⟩

/-- C6: `createArchive` of the 7z variant fails when the compression
subprocess exits abnormally, fails when no output archive file exists after
the subprocess completed, and otherwise returns the path of the created
archive file. -/
theorem c6_createArchive_error_handling (outputDir : FPath)
    (outputName : String) (execOk outputCreated : Bool) :
    (execOk = false →
      SevenZipCreator.createArchive outputDir outputName execOk outputCreated
        = .error "7z command failed") ∧
    (execOk = true → outputCreated = false →
      SevenZipCreator.createArchive outputDir outputName execOk outputCreated
        = .error "Archive file was not created") ∧
    (execOk = true → outputCreated = true →
      SevenZipCreator.createArchive outputDir outputName execOk outputCreated
        = .ok (outputDir ++ [SevenZipCreator.ensure7z outputName])) := by
  cases execOk <;> cases outputCreated <;>
    simp [SevenZipCreator.createArchive]

/-- Witness for C6: a successful 7z run returns the created archive path. -/
theorem c6_createArchive_witness :
    SevenZipCreator.createArchive ["temp"] "g_1.7z" true true
      = .ok (["temp"] ++ [SevenZipCreator.ensure7z "g_1.7z"]) :=
  (c6_createArchive_error_handling ["temp"] "g_1.7z" true true).2.2 rfl rfl

/-- C7: in the 10/0/5 multi-gallery scenario `c7Env` (the middle gallery's
extraction fails), the failed gallery is skipped, the two others are
processed in order, and the archive contains exactly two non-empty
subfolders — but the job then reports an error rather than success, because
`fs.statSync` receives the Array returned by
`ZipCreator.createMultiGalleryZip` and throws before the download link can
be sent. -/
theorem c7_extraction_absorbed_divergence :
    (processMultiGallery c7Env FS.empty).galleries =
      [⟨"g1", List.replicate 10 "u"⟩, ⟨"g3", List.replicate 5 "u"⟩] ∧
    subfolderCount (createTempDir "multi_gallery" "u2")
      (processMultiGallery c7Env FS.empty).archivedFiles = 2 ∧
    (processMultiGallery c7Env FS.empty).state = BotState.idle ∧
    (processMultiGallery c7Env FS.empty).error
      = some "ERR_INVALID_ARG_TYPE" := by
  decide

/-- C8: when the extractor finds zero images, the single-gallery pipeline
fails with the empty-result error before any download attempt, the scratch
directory is never created and the filesystem is untouched; moreover the
scratch directory and the download batch only ever occur after a non-empty
image list was obtained. -/
theorem c8_empty_result_before_download (env : SingleEnv) (fs0 : FS)
    (h : env.images = .ok []) :
    ((processSingleGallery env fs0).error
        = some "No images found in gallery" ∧
      (processSingleGallery env fs0).tempCreated = false ∧
      (processSingleGallery env fs0).downloadAttempted = false ∧
      (processSingleGallery env fs0).fs = fs0) ∧
    (∀ env2 fs2, (processSingleGallery env2 fs2).tempCreated = true →
      ∃ urls, env2.images = .ok urls ∧ urls ≠ []) ∧
    (∀ env2 fs2, (processSingleGallery env2 fs2).downloadAttempted = true →
      ∃ urls, env2.images = .ok urls ∧ urls ≠ []) := by
  refine ⟨?_, fun env2 fs2 ht => single_flags_need_images env2 fs2 (.inl ht),
    fun env2 fs2 hd => single_flags_need_images env2 fs2 (.inr hd)⟩
  unfold processSingleGallery
  rw [h]
  simp [failCleanup]

/-- Witness for C8: a job whose extraction returns the empty list fails with
the empty-result error, with no scratch directory and no download. -/
theorem c8_empty_result_witness :
    ({ c1Env with images := .ok [] } : SingleEnv).images
        = .ok ([] : List String) ∧
    (((processSingleGallery { c1Env with images := .ok [] } FS.empty).error
        = some "No images found in gallery" ∧
      (processSingleGallery { c1Env with images := .ok [] }
          FS.empty).tempCreated = false ∧
      (processSingleGallery { c1Env with images := .ok [] }
          FS.empty).downloadAttempted = false ∧
      (processSingleGallery { c1Env with images := .ok [] } FS.empty).fs
        = FS.empty) ∧
    (∀ env2 fs2, (processSingleGallery env2 fs2).tempCreated = true →
      ∃ urls, env2.images = .ok urls ∧ urls ≠ []) ∧
    (∀ env2 fs2, (processSingleGallery env2 fs2).downloadAttempted = true →
      ∃ urls, env2.images = .ok urls ∧ urls ≠ [])) :=
  ⟨rfl, c8_empty_result_before_download _ FS.empty rfl⟩

/-- Helper for C2: `renameFS` on an existing file reduces to the
volume-boundary check. -/
theorem renameFS_some (vol : FPath → Nat) (src dst : FPath) (fs : FS)
    (sz : Nat) (hf : fs.fileSize? src = some sz) :
    renameFS vol src dst fs =
      if vol src = vol dst then .ok ((fs.removeFile src).addFile dst sz)
      else .error "EXDEV" := by
  unfold renameFS
  rw [hf]

/-- C2 counterexample: `moveToDownloads` does not work across distinct
filesystem/volume boundaries — with the scratch root and the downloads
directory on different volumes, the single `fs.promises.rename` it performs
fails with `EXDEV` instead of copying and deleting the source. -/
theorem c2_cross_volume_counterexample :
    c2Vol ["temp", "g_1.zip"] ≠ c2Vol (DOWNLOADS_DIR ++ ["g_1.zip"]) ∧
    moveToDownloads c2Vol ["temp", "g_1.zip"] c2FS = .error "EXDEV" := by
  decide

/-- C2 (amended): `moveToDownloads` performs one `fs.promises.rename` of the
archive into the downloads directory — when source and destination are on
the same volume the file is moved and the download URL returned, and when
they are on distinct volumes the call fails with `EXDEV`; no copy, no
verification and no separate source deletion take place. -/
theorem c2_move_is_single_rename (vol : FPath → Nat) (fs : FS) (p : FPath)
    (sz : Nat) (hf : fs.fileSize? p = some sz) :
    (vol p = vol (DOWNLOADS_DIR ++ [p.getLastD ""]) →
      moveToDownloads vol p fs =
        .ok (DOWNLOAD_BASE_URL ++ "/" ++ p.getLastD "",
          (fs.removeFile p).addFile (DOWNLOADS_DIR ++ [p.getLastD ""]) sz) ∧
      ((fs.removeFile p).addFile (DOWNLOADS_DIR ++ [p.getLastD ""])
          sz).hasFile (DOWNLOADS_DIR ++ [p.getLastD ""]) = true ∧
      (p ≠ DOWNLOADS_DIR ++ [p.getLastD ""] →
        ((fs.removeFile p).addFile (DOWNLOADS_DIR ++ [p.getLastD ""])
            sz).hasFile p = false)) ∧
    (vol p ≠ vol (DOWNLOADS_DIR ++ [p.getLastD ""]) →
      moveToDownloads vol p fs = .error "EXDEV") := by
  constructor
  · intro hv
    refine ⟨?_, hasFile_addFile_self _ _ _, ?_⟩
    · simp only [moveToDownloads]
      rw [renameFS_some vol p _ fs sz hf, if_pos hv]
    · intro hne
      have h1 : ((DOWNLOADS_DIR ++ [p.getLastD ""]) == p) = false := by
        simp only [beq_eq_false_iff_ne]
        exact fun hh => hne hh.symm
      unfold FS.addFile FS.hasFile
      simp only [List.any_cons, h1, Bool.false_or]
      exact hasFile_removeFile_self fs p
  · intro hv
    simp only [moveToDownloads]
    rw [renameFS_some vol p _ fs sz hf, if_neg hv]

/-- Witness for C2: a same-volume move succeeds and relocates the file. -/
theorem c2_move_witness :
    c2wFS.fileSize? ["temp", "a.zip"] = some 5 ∧
    moveToDownloads (fun _ => 0) ["temp", "a.zip"] c2wFS =
      .ok (DOWNLOAD_BASE_URL ++ "/" ++ (["temp", "a.zip"] : FPath).getLastD "",
        (c2wFS.removeFile ["temp", "a.zip"]).addFile
          (DOWNLOADS_DIR ++ [(["temp", "a.zip"] : FPath).getLastD ""]) 5) :=
  ⟨by decide,
    ((c2_move_is_single_rename (fun _ => 0) c2wFS ["temp", "a.zip"] 5
      (by decide)).1 rfl).1⟩

/-- C4 counterexample: the auto-scroll routine has no overall timeout — on a
page whose document height grows by more than the scroll distance every
tick, the loop never terminates, for any amount of fuel. -/
theorem c4_no_timeout_counterexample : ¬ autoScrollTerminates c4BadHeights := by
  rintro ⟨fuel, hf⟩
  have hall : ∀ f t, autoScrollRun c4BadHeights t f = none := by
    intro f
    induction f with
    | zero => intro t; rfl
    | succ f ih =>
      intro t
      unfold autoScrollRun
      rw [if_neg]
      · exact ih (t + 1)
      · simp only [c4BadHeights, scrollDistance]
        omega
  rw [hall fuel 0] at hf
  simp at hf

/-- Helper for C4: once the scrolled total can reach the height bound, the
loop stops within the remaining fuel. -/
theorem autoScrollRun_stops (heights : Nat → Nat) (H : Nat)
    (hb : ∀ t, heights t ≤ H) :
    ∀ f t, t ≤ H / scrollDistance → H / scrollDistance + 1 ≤ t + f →
      (autoScrollRun heights t f).isSome = true := by
  intro f
  induction f with
  | zero =>
    intro t h1 h2
    omega
  | succ f ih =>
    intro t h1 h2
    unfold autoScrollRun
    by_cases hc : scrollDistance * (t + 1) ≥ heights t
    · rw [if_pos hc]
      rfl
    · rw [if_neg hc]
      apply ih
      · have hH : scrollDistance * (t + 1) < H :=
          lt_of_lt_of_le (not_le.mp hc) (hb t)
        refine (Nat.le_div_iff_mul_le (by decide)).2 ?_
        calc (t + 1) * scrollDistance
            = scrollDistance * (t + 1) := Nat.mul_comm _ _
          _ ≤ H := le_of_lt hH
      · omega

/-- C4 (amended): the auto-scroll loop stops as soon as the scrolled total
reaches the last height read, so it terminates — within `height / 100 + 1`
ticks — on every page whose document height stays bounded; it has no
overall timeout, so this bound exists only for bounded heights. -/
theorem c4_bounded_height_terminates (heights : Nat → Nat) (H : Nat)
    (hb : ∀ t, heights t ≤ H) :
    (autoScrollRun heights 0 (H / scrollDistance + 1)).isSome = true :=
  autoScrollRun_stops heights H hb (H / scrollDistance + 1) 0
    (Nat.zero_le _) (by omega)

/-- Witness for C4: a page of constant height 300 is fully scrolled within
six ticks. -/
theorem c4_bounded_height_witness :
    (autoScrollRun (fun _ => 300) 0 (500 / scrollDistance + 1)).isSome
      = true :=
  c4_bounded_height_terminates (fun _ => 300) 500
    (fun _ => by show (300 : Nat) ≤ 500; omega)

/-- C5 counterexample: a 50 MB directory of already-compressed images passes
the 0.85-discounted estimate gate (42.5 MB ≤ 45 MB), so a single archive
file is produced even though its actual size of 49 MB exceeds the 45 MB
cap — the builder can produce a single output file larger than the cap. -/
theorem c5_estimate_gate_counterexample :
    ZipCreator.createAndSplitIfNeeded c5FS ["temp", "d"] ["temp"] "g_1"
        true 51380224
      = .ok [(["temp", "g_1.zip"], 51380224)] ∧
    51380224 > ZipCreator.maxSizeBytes := by
  decide

/-- C5 (amended): `createAndSplitIfNeeded` estimates the pre-compression
directory size, discounts it by the 0.85 compression ratio, and produces a
multi-volume archive of sequentially numbered parts each at most the 45 MB
cap when the estimate exceeds the cap, and a single file otherwise; since
the gate uses only the estimate, the no-oversized-single-file guarantee
holds only on the splitting branch. -/
theorem c5_split_gated_by_estimate (fs : FS) (sourceDir outputDir : FPath)
    (stem : String) (zipSize : Nat) :
    (17 * fs.dirSize sourceDir > 20 * ZipCreator.maxSizeBytes →
      ZipCreator.createAndSplitIfNeeded fs sourceDir outputDir stem true
          zipSize
        = .ok ((ZipCreator.zipVolumes stem zipSize
            ZipCreator.maxSizeBytes).map
              (fun e => (outputDir ++ [e.1], e.2))) ∧
      ∀ e ∈ ZipCreator.zipVolumes stem zipSize ZipCreator.maxSizeBytes,
        e.2 ≤ ZipCreator.maxSizeBytes) ∧
    (¬ 17 * fs.dirSize sourceDir > 20 * ZipCreator.maxSizeBytes →
      ZipCreator.createAndSplitIfNeeded fs sourceDir outputDir stem true
          zipSize
        = .ok [(outputDir ++ [stem ++ ".zip"], zipSize)]) := by
  constructor
  · intro h
    refine ⟨?_, zipVolumes_size_le stem zipSize⟩
    unfold ZipCreator.createAndSplitIfNeeded
    rw [if_pos h]
    rfl
  · intro h
    unfold ZipCreator.createAndSplitIfNeeded
    rw [if_neg h]
    rfl

/-- Witness for C5: a 200 MB directory takes the splitting branch and every
produced volume respects the cap. -/
theorem c5_split_witness :
    17 * c5wFS.dirSize ["temp", "d"] > 20 * ZipCreator.maxSizeBytes ∧
    (ZipCreator.createAndSplitIfNeeded c5wFS ["temp", "d"] ["temp"] "m_1"
        true 178257920
      = .ok ((ZipCreator.zipVolumes "m_1" 178257920
          ZipCreator.maxSizeBytes).map
            (fun e => ((["temp"] : FPath) ++ [e.1], e.2))) ∧
    ∀ e ∈ ZipCreator.zipVolumes "m_1" 178257920 ZipCreator.maxSizeBytes,
      e.2 ≤ ZipCreator.maxSizeBytes) :=
  ⟨by decide,
    (c5_split_gated_by_estimate c5wFS ["temp", "d"] ["temp"] "m_1"
      178257920).1 (by decide)⟩

/-- C9 counterexample: on the same gallery directory, gallery name and
timestamp, the subprocess-zip variant returns the list
`[temp/g_1.zip]` while the subprocess-7z variant returns the single path
`temp/g_1.7z` — the results differ even up to the (shared) timestamp
component, so the two variants are not behaviourally equivalent. -/
theorem c9_variants_counterexample :
    zipPathsOf (ZipCreator.createSingleGalleryZip c9FS ["temp", "g"]
        "g" 1 true 800)
      = [["temp", "g_1.zip"]] ∧
    SevenZipCreator.createSingleGalleryZip ["temp", "g"] "g" 1 true true
      = .ok ["temp", "g_1.7z"] ∧
    ([["temp", "g_1.zip"]] : List FPath) ≠ [["temp", "g_1.7z"]] := by
  decide

/-- C9 (amended): the two `createSingleGalleryZip` variants agree on the
output directory (the parent of the gallery directory) and on the
`name_timestamp` filename stem, but they are not equivalent: the zip
variant returns a list of paths whose extensions are `.zip`-family and
never `.7z`, so none of its outputs equals the single `.7z` path the 7z
variant returns. -/
theorem c9_variants_not_equivalent (fs : FS) (galleryDir : FPath)
    (name : String) (ts : Nat) (zipOk : Bool) (zipSize : Nat) :
    (∀ p ∈ zipPathsOf (ZipCreator.createSingleGalleryZip fs galleryDir
        name ts zipOk zipSize),
      p.dropLast = galleryDir.dropLast ∧
      (∃ ext, p.getLastD "" = name ++ "_" ++ toString ts ++ ext ∧
        ext ≠ ".7z") ∧
      p ≠ galleryDir.dropLast ++ [name ++ "_" ++ toString ts ++ ".7z"]) ∧
    SevenZipCreator.createSingleGalleryZip galleryDir name ts true true
      = .ok (galleryDir.dropLast ++ [name ++ "_" ++ toString ts ++ ".7z"]) := by
  constructor
  · intro p hp
    obtain ⟨ext, rfl, _, h7⟩ := zipPaths_createAndSplit_shape fs galleryDir
      galleryDir.dropLast (name ++ "_" ++ toString ts) zipOk zipSize p hp
    refine ⟨List.dropLast_concat, ⟨ext, List.getLastD_concat _ _ _, h7⟩, ?_⟩
    intro heq
    apply h7
    have h1 : name ++ "_" ++ toString ts ++ ext
        = name ++ "_" ++ toString ts ++ ".7z" :=
      List.head_eq_of_cons_eq (List.append_cancel_left heq)
    have h3 := congrArg String.data h1
    simp only [strData_append, List.append_assoc] at h3
    exact congrArg String.mk
      (List.append_cancel_left (List.append_cancel_left
        (List.append_cancel_left h3)))
  · unfold SevenZipCreator.createSingleGalleryZip SevenZipCreator.createArchive
    rw [ensure7z_of_end (name ++ "_" ++ toString ts)]
    simp

/-- Witness for C9: the zip variant's concrete output is not the 7z
variant's output path. -/
theorem c9_variants_witness :
    (["temp", "g_1.zip"] : FPath) ∈
      zipPathsOf (ZipCreator.createSingleGalleryZip c9FS ["temp", "g"]
        "g" 1 true 800) ∧
    (["temp", "g_1.zip"] : FPath) ≠
      (["temp", "g"] : FPath).dropLast ++ ["g" ++ "_" ++ toString 1 ++ ".7z"] :=
  ⟨by decide,
    ((c9_variants_not_equivalent c9FS ["temp", "g"] "g" 1 true 800).1
      ["temp", "g_1.zip"] (by decide)).2.2⟩

/-- C10: every archive-creation operation of both variants
(`createSingleGalleryZip` and `createMultiGalleryZip`) writes its output
files into the parent directory of the source scratch directory and never
inside it, so the subsequent recursive deletion of the scratch directory
leaves every created archive file in place. -/
theorem c10_archive_outside_scratch (fs fs2 : FS) (tempDir : FPath)
    (name : String) (ts : Nat) (zipOk execOk created : Bool) (zipSize : Nat)
    (hne : tempDir ≠ []) (hdot : strHasDot (tempDir.getLastD "") = false) :
    (∀ p ∈ zipPathsOf (ZipCreator.createSingleGalleryZip fs tempDir name ts
        zipOk zipSize),
      underDir tempDir p = false ∧
      (deleteDir tempDir fs2).hasFile p = fs2.hasFile p) ∧
    (∀ p ∈ zipPathsOf (ZipCreator.createMultiGalleryZip fs tempDir name ts
        zipOk zipSize),
      underDir tempDir p = false ∧
      (deleteDir tempDir fs2).hasFile p = fs2.hasFile p) ∧
    (∀ p, SevenZipCreator.createSingleGalleryZip tempDir name ts execOk
        created = .ok p →
      underDir tempDir p = false ∧
      (deleteDir tempDir fs2).hasFile p = fs2.hasFile p) ∧
    (∀ p, SevenZipCreator.createMultiGalleryZip tempDir name ts execOk
        created = .ok p →
      underDir tempDir p = false ∧
      (deleteDir tempDir fs2).hasFile p = fs2.hasFile p) := by
  refine ⟨fun p hp => ?_, fun p hp => ?_, fun p hp => ?_, fun p hp => ?_⟩
  · obtain ⟨ext, rfl, hde, _⟩ := zipPaths_createAndSplit_shape fs tempDir
      tempDir.dropLast (name ++ "_" ++ toString ts) zipOk zipSize p hp
    have hfn : strHasDot (name ++ "_" ++ toString ts ++ ext) = true := by
      rw [strHasDot_append, hde, Bool.or_true]
    obtain ⟨_, hu, hfile⟩ := parentFile_ok tempDir _ fs2 hne hdot hfn
    exact ⟨hu, hfile⟩
  · obtain ⟨ext, rfl, hde, _⟩ := zipPaths_createAndSplit_shape fs tempDir
      tempDir.dropLast (name ++ "_galleries_" ++ toString ts) zipOk zipSize
      p hp
    have hfn : strHasDot (name ++ "_galleries_" ++ toString ts ++ ext)
        = true := by
      rw [strHasDot_append, hde, Bool.or_true]
    obtain ⟨_, hu, hfile⟩ := parentFile_ok tempDir _ fs2 hne hdot hfn
    exact ⟨hu, hfile⟩
  · obtain ⟨rfl, -, -⟩ := sevenZip_createArchive_ok tempDir.dropLast
      (name ++ "_" ++ toString ts ++ ".7z") execOk created p hp
    rw [ensure7z_of_end (name ++ "_" ++ toString ts)]
    have hfn : strHasDot (name ++ "_" ++ toString ts ++ ".7z") = true := by
      rw [strHasDot_append]
      simp [show strHasDot ".7z" = true from by decide]
    obtain ⟨_, hu, hfile⟩ := parentFile_ok tempDir _ fs2 hne hdot hfn
    exact ⟨hu, hfile⟩
  · obtain ⟨rfl, -, -⟩ := sevenZip_createArchive_ok tempDir.dropLast
      (name ++ "_galleries_" ++ toString ts ++ ".7z") execOk created p hp
    rw [ensure7z_of_end (name ++ "_galleries_" ++ toString ts)]
    have hfn : strHasDot (name ++ "_galleries_" ++ toString ts ++ ".7z")
        = true := by
      rw [strHasDot_append]
      simp [show strHasDot ".7z" = true from by decide]
    obtain ⟨_, hu, hfile⟩ := parentFile_ok tempDir _ fs2 hne hdot hfn
    exact ⟨hu, hfile⟩

/-- Witness for C10: concrete scratch directory and filesystem on which the
zip variant's outputs survive the scratch deletion. -/
theorem c10_archive_outside_witness :
    ((["temp", "g"] : FPath) ≠ []) ∧
    strHasDot ((["temp", "g"] : FPath).getLastD "") = false ∧
    (∀ p ∈ zipPathsOf (ZipCreator.createSingleGalleryZip c9FS ["temp", "g"]
        "g" 1 true 800),
      underDir ["temp", "g"] p = false ∧
      (deleteDir ["temp", "g"] c2FS).hasFile p = c2FS.hasFile p) :=
  ⟨by decide, by decide,
    (c10_archive_outside_scratch c9FS c2FS ["temp", "g"] "g" 1 true true
      true 800 (by decide) (by decide)).1⟩

end GalleryBot
